import Mathlib

/-!
Shallow embedding of the mcp-gsuite repository (a TypeScript MCP server
exposing Google Drive / Docs / Sheets operations) and proofs of the frozen
claims about it.

Modelling conventions used throughout:
- JavaScript values carried in JSON are modelled by the inductive `Json`
  below; numbers are modelled as `Rat` (no floating-point rounding is
  exercised by any claim).
- `undefined` / an absent object field is modelled as `Option.none`.
- JavaScript truthiness is modelled per type where the source relies on it
  (`0`, `""`, `null`, `undefined`, `false` are falsy).
- File contents are modelled post-`JSON.parse`, i.e. the filesystem maps the
  two configured paths to parsed `Json` values; `JSON.stringify` followed by
  `JSON.parse` of a tree of JSON data is the identity, so writing is
  modelled as storing the `Json` tree.
- Network calls (Google API endpoints, the OAuth refresh endpoint) are
  modelled as oracle parameters supplying their outcome; the pure
  request-building code around them is translated faithfully.
-/

namespace Gsuite

/-- JSON value model; numbers are rationals. -/
inductive Json where
  | null : Json
  | bool : Bool → Json
  | num : Rat → Json
  | str : String → Json
  | arr : List Json → Json
  | obj : List (String × Json) → Json

/-- Field lookup in a parsed JSON object. `JSON.parse` keeps the last
occurrence of a duplicated key, so the last binding wins. -/
def jlookup (kvs : List (String × Json)) (k : String) : Option Json :=
  match kvs with
  | [] => none
  | (k2, v) :: rest =>
    match jlookup rest k with
    | some r => some r
    | none => if k2 = k then some v else none

/-- A parsed JSON value that JavaScript treats as falsy. -/
def jsonFalsy (j : Json) : Bool :=
  match j with
  | .null => true
  | .bool false => true
  | .num q => q = 0
  | .str s => s = ""
  | _ => false

/-- JS string truthiness on an optional string (undefined and "" are falsy). -/
def jsTruthyStr (s : Option String) : Bool :=
  match s with
  | none => false
  | some s => !(s = "")

/-- JS number truthiness on an optional number (undefined and 0 are falsy). -/
def jsTruthyNum (q : Option Rat) : Bool :=
  match q with
  | none => false
  | some q => !(q = 0)

/-- JS truthiness of an optional boolean field. -/
def jsTruthyBool (b : Option Bool) : Bool :=
  match b with
  | none => false
  | some b => b

def bslash : Char := '\\'

def squote : Char := '\''

def dquote : Char := '"'

/-- JSON string escaping used by `JSON.stringify` (quote and backslash; the
rarer control-character escapes are not exercised by any claim). -/
def escapeJsonChars : List Char → List Char
  | [] => []
  | c :: cs =>
    (if c = bslash then [bslash, bslash]
     else if c = dquote then [bslash, dquote]
     else [c]) ++ escapeJsonChars cs

mutual

/-- Model of `JSON.stringify` (compact form; the `null, 2` pretty-printing
indentation of the source is not modelled, no claim depends on it). -/
def stringify : Json → String
  | .null => "null"
  | .bool true => "true"
  | .bool false => "false"
  | .num q => toString q
  | .str s => String.mk ([dquote] ++ escapeJsonChars s.toList ++ [dquote])
  | .arr l => "[" ++ stringifyArr l ++ "]"
  | .obj kvs => "\x7b" ++ stringifyObj kvs ++ "\x7d"

def stringifyArr : List Json → String
  | [] => ""
  | [j] => stringify j
  | j :: rest => stringify j ++ "," ++ stringifyArr rest

def stringifyObj : List (String × Json) → String
  | [] => ""
  | [(k, v)] => String.mk ([dquote] ++ escapeJsonChars k.toList ++ [dquote]) ++ ":" ++ stringify v
  | (k, v) :: rest =>
    String.mk ([dquote] ++ escapeJsonChars k.toList ++ [dquote]) ++ ":" ++ stringify v ++ "," ++ stringifyObj rest

end

/-! ## Drive adapter: `searchFiles` query escaping (src/unnamed/part_006, lines 20-32)

`const escapedQuery = query.replace(/\\/g, "\\\\").replace(/'/g, "\\'");`
`const formattedQuery = `fullText contains '${escapedQuery}'`;`

Strings are handled at the character-list level. -/

/-- First replace pass: `query.replace(/\\/g, "\\\\")` — every backslash
becomes two backslashes. -/
def escapeBackslashes : List Char → List Char
  | [] => []
  | c :: cs =>
    if c = bslash then bslash :: bslash :: escapeBackslashes cs
    else c :: escapeBackslashes cs

/-- Second replace pass: `.replace(/'/g, "\\'")` — every single quote becomes
backslash quote. -/
def escapeSingleQuotes : List Char → List Char
  | [] => []
  | c :: cs =>
    if c = squote then bslash :: squote :: escapeSingleQuotes cs
    else c :: escapeSingleQuotes cs

/-- The escaped query: both replace passes in source order. -/
def escapeQuery (q : List Char) : List Char :=
  escapeSingleQuotes (escapeBackslashes q)

/-- The constructed Drive filter string
`fullText contains '<escaped>'`. -/
def searchFilter (q : List Char) : List Char :=
  "fullText contains ".toList ++ [squote] ++ escapeQuery q ++ [squote]

/-- Scanner for the Drive query grammar inside a quoted literal: a backslash
escapes the following character; the predicate holds when no single quote
occurs outside such an escape. -/
def noUnescapedQuote : List Char → Bool
  | [] => true
  | [c] => c = bslash || !(c = squote)
  | c :: d :: rest =>
    if c = bslash then noUnescapedQuote rest
    else !(c = squote) && noUnescapedQuote (d :: rest)

/-! ## Sheets adapter (src/unnamed/part_004, `GoogleSheetsService`) -/

/-- Zero-based rectangular grid range of the Sheets API. -/
structure GridRange where
  sheetId : Int
  startRowIndex : Int
  endRowIndex : Int
  startColumnIndex : Int
  endColumnIndex : Int
deriving DecidableEq

/-- Sheets color record (zod `SheetsColorSchema`). -/
structure SheetsColor where
  red : Rat
  green : Rat
  blue : Rat
  alpha : Option Rat := none
deriving DecidableEq

/-- Sheets text format record (part of zod `CellFormatSchema`). -/
structure SheetsTextFormat where
  foregroundColor : Option SheetsColor := none
  fontFamily : Option String := none
  fontSize : Option Rat := none
  bold : Option Bool := none
  italic : Option Bool := none
  strikethrough : Option Bool := none
  underline : Option Bool := none
deriving DecidableEq

/-- One border spec (style enum plus color). -/
structure BorderSpec where
  style : String
  color : SheetsColor
deriving DecidableEq

/-- Borders record of `CellFormatSchema`. -/
structure SheetsBorders where
  top : Option BorderSpec := none
  bottom : Option BorderSpec := none
  left : Option BorderSpec := none
  right : Option BorderSpec := none
deriving DecidableEq

/-- Number format record of `CellFormatSchema`. -/
structure SheetsNumberFormat where
  type : String
  pattern : Option String := none
deriving DecidableEq

/-- Cell format record (zod `CellFormatSchema`). -/
structure CellFormat where
  backgroundColor : Option SheetsColor := none
  textFormat : Option SheetsTextFormat := none
  horizontalAlignment : Option String := none
  verticalAlignment : Option String := none
  borders : Option SheetsBorders := none
  numberFormat : Option SheetsNumberFormat := none
deriving DecidableEq

/-- Cell payload of a repeatCell request (`cell: { userEnteredFormat: format }`). -/
structure CellData where
  userEnteredFormat : CellFormat
deriving DecidableEq

/-- The Sheets batch-update requests this repository emits for the claims at
hand. -/
inductive SheetsRequest where
  | repeatCell (range : GridRange) (cell : CellData) (fields : String)
  | mergeCells (range : GridRange) (mergeType : String)
deriving DecidableEq

/-- `GoogleSheetsService.getGridRange` (part_004 lines 181-192): splits the
A1 string on `!` but then ignores the parts, always returning sheet id 0
with a fixed 1000-row by 26-column bounding box. -/
def getGridRange (a1Range : String) : GridRange :=
  let _parts := a1Range.splitOn "!"
  { sheetId := 0
    startRowIndex := 0
    endRowIndex := 1000
    startColumnIndex := 0
    endColumnIndex := 26 }

/-- `FormatCells` input record (zod `FormatCellsSchema`). -/
structure FormatCells where
  spreadsheetId : String
  range : String
  format : CellFormat
deriving DecidableEq

/-- `MergeCells` input record (zod `MergeCellsSchema`). -/
structure MergeCells where
  spreadsheetId : String
  range : String
deriving DecidableEq

/-- The requests list of the batchUpdate body emitted by
`GoogleSheetsService.formatCells` (part_004 lines 109-128). -/
def formatCellsRequests (input : FormatCells) : List SheetsRequest :=
  [.repeatCell (getGridRange input.range) ⟨input.format⟩ "userEnteredFormat"]

/-- The requests list of the batchUpdate body emitted by
`GoogleSheetsService.mergeCells` (part_004 lines 153-169). -/
def mergeCellsRequests (input : MergeCells) : List SheetsRequest :=
  [.mergeCells (getGridRange input.range) "MERGE_ALL"]

/-! ## Auth manager (src/unnamed/part_003, `AuthService`)

The filesystem is modelled as the contents of the two configured files,
post-`JSON.parse` (a missing file is `none`). `Date.now()` and the outcome of
`auth.refreshAccessToken()` are oracle parameters. -/

/-- OAuth token record (the fields of google-auth-library `Credentials`).
`expiry_date` is a millisecond timestamp; it is integral, like `Date.now()`. -/
structure Credentials where
  access_token : Option String := none
  refresh_token : Option String := none
  expiry_date : Option Int := none
  token_type : Option String := none
  scope : Option String := none
  id_token : Option String := none
deriving DecidableEq

/-- Serialization of a credential record as written by
`JSON.stringify(credentials, null, 2)`: fields that are `undefined` are
dropped. -/
def credsToJson (c : Credentials) : Json :=
  Json.obj
    ((match c.access_token with | some s => [("access_token", Json.str s)] | none => []) ++
     (match c.refresh_token with | some s => [("refresh_token", Json.str s)] | none => []) ++
     (match c.expiry_date with | some q => [("expiry_date", Json.num (Rat.ofInt q))] | none => []) ++
     (match c.token_type with | some s => [("token_type", Json.str s)] | none => []) ++
     (match c.scope with | some s => [("scope", Json.str s)] | none => []) ++
     (match c.id_token with | some s => [("id_token", Json.str s)] | none => []))

/-- Reading a string-valued field of a parsed JSON object. -/
def jGetStr (j : Json) (k : String) : Option String :=
  match j with
  | .obj kvs =>
    match jlookup kvs k with
    | some (.str s) => some s
    | _ => none
  | _ => none

/-- Reading an integral number-valued field of a parsed JSON object
(timestamps are integral; a fractional value is not exercised by any claim
and reads as absent). -/
def jGetInt (j : Json) (k : String) : Option Int :=
  match j with
  | .obj kvs =>
    match jlookup kvs k with
    | some (.num q) => if q.den = 1 then some q.num else none
    | _ => none
  | _ => none

/-- The credential record as read back from the parsed credential file.
`JSON.parse` performs no validation; subsequent code only reads the fields
below, so the record collects exactly those (a field of an unexpected type is
not exercised by any claim and is treated as absent). -/
def credsOfJson (j : Json) : Credentials :=
  { access_token := jGetStr j "access_token"
    refresh_token := jGetStr j "refresh_token"
    expiry_date := jGetInt j "expiry_date"
    token_type := jGetStr j "token_type"
    scope := jGetStr j "scope"
    id_token := jGetStr j "id_token" }

/-- Error codes of `AuthenticationError`. -/
inductive AuthCode where
  | NO_CREDENTIALS
  | INVALID_STATE
  | REFRESH_FAILED
  | NO_REFRESH_TOKEN
  | NO_OAUTH_KEYS
  | AUTH_FAILED
  | SAVE_FAILED
  | LOAD_FAILED
deriving DecidableEq

/-- `AuthenticationError` (part_003 lines 8-13): a message plus a code. -/
structure AuthenticationError where
  message : String
  code : AuthCode
deriving DecidableEq

/-- The OAuth2 client handle: constructor configuration plus the credentials
installed by `setCredentials`. The constructor arguments may be `undefined`
(missing keys of the client-config file). -/
structure OAuth2Client where
  clientId : Option Json := none
  clientSecret : Option Json := none
  redirectUri : Option Json := none
  credentials : Option Credentials := none

/-- In-memory singleton state of `AuthService`: `this.auth` and
`this.credentials`. -/
structure AuthState where
  auth : Option OAuth2Client
  credentials : Option Credentials

/-- Contents of the two configured files, post-`JSON.parse`; `none` means the
file does not exist. -/
structure FsState where
  credFile : Option Json
  oauthFile : Option Json

/-- Result of extracting the client-config fields
`oauthConfig.installed.client_id`, `.client_secret`, `.redirect_uris[0]`. -/
structure ClientConfig where
  clientId : Option Json
  clientSecret : Option Json
  redirectUri : Option Json

/-- JS property access `j.k`: throws on `null` (and the caller handles
`undefined` bases separately); on a non-object non-null base the result is
`undefined`. -/
def jsProp (j : Json) (k : String) : Except Unit (Option Json) :=
  match j with
  | .null => .error ()
  | .obj kvs => .ok (jlookup kvs k)
  | _ => .ok none

/-- Extraction of the OAuth client configuration as performed at part_003
lines 161-166: `oauthConfig.installed.client_id` etc. A missing or `null`
`installed` object, or a missing `redirect_uris`, raises a TypeError
(indexing a string base is not modelled; no claim exercises it). -/
def readOAuthConfig (j : Json) : Except Unit ClientConfig := do
  let installedOpt ← jsProp j "installed"
  match installedOpt with
  | none => .error ()
  | some installed =>
    let cid ← jsProp installed "client_id"
    let cs ← jsProp installed "client_secret"
    let rus ← jsProp installed "redirect_uris"
    match rus with
    | none => .error ()
    | some .null => .error ()
    | some (.arr l) => .ok ⟨cid, cs, l.head?⟩
    | some _ => .ok ⟨cid, cs, none⟩

/-- `AuthService.saveCredentials` (part_003 lines 130-143): creates the parent
directory if needed and overwrites the credential file with the serialized
record. Filesystem write failure (`SAVE_FAILED`) is not modelled: the
filesystem model is a total store. -/
def saveCredentials (fs : FsState) (credentials : Credentials) : FsState :=
  { fs with credFile := some (credsToJson credentials) }

/-- `AuthService.loadSavedCredentials` (part_003 lines 145-181). Returns the
new client (or `none` when no credential file exists) together with the
updated in-memory state. `LOAD_FAILED` covers the generic catch around the
reads and the client construction. -/
def loadSavedCredentials (s : AuthState) (fs : FsState) (oauthPath : String) :
    Except AuthenticationError (Option OAuth2Client × AuthState) :=
  match fs.credFile with
  | none => .ok (none, s)
  | some credJson =>
    match fs.oauthFile with
    | none =>
      .error ⟨"OAuth keys file not found at " ++ oauthPath ++
              ". Please set up your OAuth credentials first.", .NO_OAUTH_KEYS⟩
    | some oauthJson =>
      match readOAuthConfig oauthJson with
      | .error _ =>
        .error ⟨"Failed to load saved credentials. Please run `node dist/index.js auth` to re-authenticate.",
                .LOAD_FAILED⟩
      | .ok cfg =>
        let creds : Option Credentials :=
          if jsonFalsy credJson then none else some (credsOfJson credJson)
        let client : OAuth2Client :=
          { clientId := cfg.clientId
            clientSecret := cfg.clientSecret
            redirectUri := cfg.redirectUri
            credentials := creds }
        .ok (some client, { auth := some client, credentials := creds })

/-- The five-minute margin, in milliseconds (part_003 line 66). -/
def fiveMinutes : Int := 5 * 60 * 1000

/-- The expiry guard of part_003 line 68:
`expiryDate && expiryDate > Date.now() + fiveMinutes` (a `0` timestamp is
falsy and skips the comparison). -/
def expiryFresh (expiry : Option Int) (now : Int) : Bool :=
  match expiry with
  | none => false
  | some e => if e = 0 then false else decide (now + fiveMinutes < e)

/-- Observable outcome of one `authenticate()` call: the returned client or
the thrown error, the in-memory state afterwards, the filesystem afterwards,
and how many times the refresh endpoint was invoked. -/
structure AuthOutcome where
  result : Except AuthenticationError OAuth2Client
  state : AuthState
  fs : FsState
  refreshCalls : Nat

/-- `AuthService.authenticate` (part_003 lines 44-91). `now` is `Date.now()`;
`refreshResult` is the outcome of `this.auth.refreshAccessToken()` (its new
credential record on success). -/
def authenticate (s : AuthState) (fs : FsState) (oauthPath : String) (now : Int)
    (refreshResult : Except Unit Credentials) : AuthOutcome :=
  let loaded : Except AuthenticationError AuthState :=
    if s.auth.isNone || s.credentials.isNone then
      match loadSavedCredentials s fs oauthPath with
      | .error e => .error e
      | .ok (none, _) =>
        .error ⟨"No saved credentials found. Please run `node dist/index.js auth` to authenticate.",
                .NO_CREDENTIALS⟩
      | .ok (some _, s2) => .ok s2
    else .ok s
  match loaded with
  | .error e => ⟨.error e, s, fs, 0⟩
  | .ok s1 =>
    match s1.auth, s1.credentials with
    | some a, some c =>
      if expiryFresh c.expiry_date now then
        ⟨.ok a, s1, fs, 0⟩
      else if jsTruthyStr c.refresh_token then
        match refreshResult with
        | .ok newCreds =>
          ⟨.ok a, { s1 with credentials := some newCreds }, saveCredentials fs newCreds, 1⟩
        | .error _ =>
          ⟨.error ⟨"Failed to refresh access token. Your refresh token may have expired. Please run `node dist/index.js auth` to re-authenticate.",
                   .REFRESH_FAILED⟩, s1, fs, 1⟩
      else
        ⟨.error ⟨"No refresh token available. Please run `node dist/index.js auth` to re-authenticate.",
                 .NO_REFRESH_TOKEN⟩, s1, fs, 0⟩
    | _, _ =>
      ⟨.error ⟨"Authentication state is invalid. Please run `node dist/index.js auth` to re-authenticate.",
               .INVALID_STATE⟩, s1, fs, 0⟩

/-! ## Docs adapter (src/unnamed/part_003, second `GoogleDocsService` revision,
lines 502-992)

The request-building code of `updateDocument` and its helpers is pure and is
translated faithfully; string lengths are character counts (the UTF-16 unit
count of JS `.length` coincides on the inputs of every claim). -/

/-- RGB color of the Docs style schema (each channel optional). -/
structure RgbColor where
  red : Option Rat := none
  green : Option Rat := none
  blue : Option Rat := none
deriving DecidableEq

/-- Font family spec of the Docs style schema. -/
structure FontFamilySpec where
  family : String
  weight : Option Rat := none
deriving DecidableEq

/-- The flat declarative style record (zod `StyleSchema`,
src/src/types/schemas.ts lines 11-35); the enum-typed fields carry their
string value. -/
structure Style where
  bold : Option Bool := none
  italic : Option Bool := none
  underline : Option Bool := none
  strikethrough : Option Bool := none
  fontSize : Option Rat := none
  foregroundColor : Option RgbColor := none
  backgroundColor : Option RgbColor := none
  heading : Option String := none
  fontFamily : Option FontFamilySpec := none
  alignment : Option String := none
  lineSpacing : Option Rat := none
  spaceAbove : Option Rat := none
  spaceBelow : Option Rat := none
  indentStart : Option Rat := none
  indentEnd : Option Rat := none
  indentFirstLine : Option Rat := none
  direction : Option String := none
  keepLinesTogether : Option Bool := none
  keepWithNext : Option Bool := none
  pageBreakBefore : Option Bool := none
deriving DecidableEq

/-- A magnitude with unit, as in `{ magnitude: ..., unit: 'PT' }`. -/
structure Dimension where
  magnitude : Rat
  unit : String
deriving DecidableEq

/-- Weighted font family of the Docs API text style. -/
structure WeightedFontFamily where
  fontFamily : String
  weight : Rat
deriving DecidableEq

/-- A color wrapped as `{ color: { rgbColor: ... } }` in the Docs API. -/
structure OptionalColor where
  rgbColor : RgbColor
deriving DecidableEq

/-- Docs API run-level text style (`docs_v1.Schema$TextStyle`), restricted to
the fields this repository sets. -/
structure TextStyle where
  bold : Option Bool := none
  italic : Option Bool := none
  underline : Option Bool := none
  strikethrough : Option Bool := none
  fontSize : Option Dimension := none
  foregroundColor : Option OptionalColor := none
  backgroundColor : Option OptionalColor := none
  weightedFontFamily : Option WeightedFontFamily := none
deriving DecidableEq

/-- Docs API paragraph style (`docs_v1.Schema$ParagraphStyle`), restricted to
the fields this repository sets. -/
structure ParagraphStyle where
  alignment : Option String := none
  lineSpacing : Option Rat := none
  spaceAbove : Option Dimension := none
  spaceBelow : Option Dimension := none
  indentStart : Option Dimension := none
  indentEnd : Option Dimension := none
  indentFirstLine : Option Dimension := none
  direction : Option String := none
  keepLinesTogether : Option Bool := none
  keepWithNext : Option Bool := none
  pageBreakBefore : Option Bool := none
  namedStyleType : Option String := none
deriving DecidableEq

/-- A start/end index range of the Docs API. -/
structure DocsRange where
  startIndex : Nat
  endIndex : Nat
deriving DecidableEq

/-- The Docs batch-update requests this repository emits. `insertText`
carries the optional segment id used for header/footer insertions. -/
inductive DocsRequest where
  | deleteContentRange (range : DocsRange)
  | insertText (segmentId : Option String) (index : Nat) (text : String)
  | updateTextStyle (range : DocsRange) (textStyle : TextStyle) (fields : String)
  | updateParagraphStyle (range : DocsRange) (paragraphStyle : ParagraphStyle) (fields : String)
  | insertPageBreak (index : Nat)
  | createHeader (type : String) (sectionBreakIndex : Nat)
  | createFooter (type : String) (sectionBreakIndex : Nat)
deriving DecidableEq

/-- `GoogleDocsService.applyTextStyle` (part_003 lines 757-797): fills a
Docs API text style from the flat style record and returns the list of field
names set, in source order. The JS truthiness tests of the source are kept
(`false`, `0` and absent values do not set a field); `style.fontFamily.weight
|| 400` defaults a falsy weight to 400. -/
def applyTextStyle (style : Style) : TextStyle × List String :=
  let ts : TextStyle := {}
  let fields : List String := []
  let (ts, fields) :=
    if jsTruthyBool style.bold then ({ ts with bold := some true }, fields ++ ["bold"])
    else (ts, fields)
  let (ts, fields) :=
    if jsTruthyBool style.italic then ({ ts with italic := some true }, fields ++ ["italic"])
    else (ts, fields)
  let (ts, fields) :=
    if jsTruthyBool style.underline then ({ ts with underline := some true }, fields ++ ["underline"])
    else (ts, fields)
  let (ts, fields) :=
    if jsTruthyBool style.strikethrough then
      ({ ts with strikethrough := some true }, fields ++ ["strikethrough"])
    else (ts, fields)
  let (ts, fields) :=
    match style.fontSize with
    | some q =>
      if q = 0 then (ts, fields)
      else ({ ts with fontSize := some ⟨q, "PT"⟩ }, fields ++ ["fontSize"])
    | none => (ts, fields)
  let (ts, fields) :=
    match style.foregroundColor with
    | some col => ({ ts with foregroundColor := some ⟨col⟩ }, fields ++ ["foregroundColor"])
    | none => (ts, fields)
  let (ts, fields) :=
    match style.backgroundColor with
    | some col => ({ ts with backgroundColor := some ⟨col⟩ }, fields ++ ["backgroundColor"])
    | none => (ts, fields)
  let (ts, fields) :=
    match style.fontFamily with
    | some ff =>
      let weight := match ff.weight with
        | some w => if w = 0 then 400 else w
        | none => 400
      ({ ts with weightedFontFamily := some ⟨ff.family, weight⟩ }, fields ++ ["weightedFontFamily"])
    | none => (ts, fields)
  (ts, fields)

/-- `GoogleDocsService.applyParagraphStyle` (part_003 lines 799-852): fills a
Docs API paragraph style from the flat style record and returns the list of
field names set, in source order. The three pagination flags are tested with
`!== undefined` in the source, so a present `false` does set the field. -/
def applyParagraphStyle (style : Style) : ParagraphStyle × List String :=
  let ps : ParagraphStyle := {}
  let fields : List String := []
  let (ps, fields) :=
    if jsTruthyStr style.alignment then
      ({ ps with alignment := style.alignment }, fields ++ ["alignment"])
    else (ps, fields)
  let (ps, fields) :=
    if jsTruthyNum style.lineSpacing then
      ({ ps with lineSpacing := style.lineSpacing }, fields ++ ["lineSpacing"])
    else (ps, fields)
  let (ps, fields) :=
    match style.spaceAbove with
    | some q =>
      if q = 0 then (ps, fields)
      else ({ ps with spaceAbove := some ⟨q, "PT"⟩ }, fields ++ ["spaceAbove"])
    | none => (ps, fields)
  let (ps, fields) :=
    match style.spaceBelow with
    | some q =>
      if q = 0 then (ps, fields)
      else ({ ps with spaceBelow := some ⟨q, "PT"⟩ }, fields ++ ["spaceBelow"])
    | none => (ps, fields)
  let (ps, fields) :=
    match style.indentStart with
    | some q =>
      if q = 0 then (ps, fields)
      else ({ ps with indentStart := some ⟨q, "PT"⟩ }, fields ++ ["indentStart"])
    | none => (ps, fields)
  let (ps, fields) :=
    match style.indentEnd with
    | some q =>
      if q = 0 then (ps, fields)
      else ({ ps with indentEnd := some ⟨q, "PT"⟩ }, fields ++ ["indentEnd"])
    | none => (ps, fields)
  let (ps, fields) :=
    match style.indentFirstLine with
    | some q =>
      if q = 0 then (ps, fields)
      else ({ ps with indentFirstLine := some ⟨q, "PT"⟩ }, fields ++ ["indentFirstLine"])
    | none => (ps, fields)
  let (ps, fields) :=
    if jsTruthyStr style.direction then
      ({ ps with direction := style.direction }, fields ++ ["direction"])
    else (ps, fields)
  let (ps, fields) :=
    match style.keepLinesTogether with
    | some b => ({ ps with keepLinesTogether := some b }, fields ++ ["keepLinesTogether"])
    | none => (ps, fields)
  let (ps, fields) :=
    match style.keepWithNext with
    | some b => ({ ps with keepWithNext := some b }, fields ++ ["keepWithNext"])
    | none => (ps, fields)
  let (ps, fields) :=
    match style.pageBreakBefore with
    | some b => ({ ps with pageBreakBefore := some b }, fields ++ ["pageBreakBefore"])
    | none => (ps, fields)
  let (ps, fields) :=
    if jsTruthyStr style.heading then
      ({ ps with namedStyleType := style.heading }, fields ++ ["namedStyleType"])
    else (ps, fields)
  (ps, fields)

/-- One styled section of the rich document content
(`DocumentSectionSchema`). -/
structure DocumentSection where
  text : String
  style : Option Style := none
deriving DecidableEq

/-- Cover page descriptor of the rich document content. -/
structure CoverPage where
  title : String
  subtitle : Option String := none
  date : Option String := none
deriving DecidableEq

/-- Headers descriptor of the rich document content; `default` holds the
default-page header text and `firstPage` the first-page header text. -/
structure HeadersSpec where
  defaultHeader : Option String := none
  firstPage : Option String := none
deriving DecidableEq

/-- The rich document content descriptor of the second `GoogleDocsService`
revision (its schema file is not part of the snapshot; the shape is fixed by
the revision's field accesses and by the `docs_create` catalog schema in
src/src/server.ts). -/
structure RichDocumentContent where
  coverPage : Option CoverPage := none
  headers : Option HeadersSpec := none
  footer : Option String := none
  body : Option (List DocumentSection) := none
deriving DecidableEq

/-- The `content` union accepted by the rich `updateDocument` revision,
discriminated exactly as the source does (`typeof content === 'string'`,
then `'text' in content`, else the full descriptor). -/
inductive DocUpdateContent where
  | plain (text : String)
  | section (sec : DocumentSection)
  | full (dc : RichDocumentContent)
deriving DecidableEq

/-- `GoogleDocsService.addCoverPageRequests` (part_003 lines 561-640, second
revision): appends insert/paragraph-style/page-break requests for the cover
page. `subtitle` and `date` are guarded by JS string truthiness. -/
def addCoverPageRequests (requests : List DocsRequest) (coverPage : CoverPage) :
    List DocsRequest :=
  let currentIndex : Nat := 1
  let requests := requests ++
    [.insertText none currentIndex (coverPage.title ++ "\n")]
  let currentIndex := currentIndex + coverPage.title.length + 1
  let requests := requests ++
    [.updateParagraphStyle ⟨1, currentIndex⟩
      { namedStyleType := some "TITLE", alignment := some "CENTER" }
      "namedStyleType,alignment"]
  let (requests, currentIndex) :=
    match coverPage.subtitle with
    | some subtitle =>
      if subtitle = "" then (requests, currentIndex)
      else
        let requests := requests ++ [DocsRequest.insertText none currentIndex (subtitle ++ "\n")]
        let subtitleStart := currentIndex
        let currentIndex := currentIndex + subtitle.length + 1
        (requests ++
          [DocsRequest.updateParagraphStyle ⟨subtitleStart, currentIndex⟩
            { namedStyleType := some "SUBTITLE", alignment := some "CENTER" }
            "namedStyleType,alignment"], currentIndex)
    | none => (requests, currentIndex)
  let (requests, currentIndex) :=
    match coverPage.date with
    | some date =>
      if date = "" then (requests, currentIndex)
      else
        let requests := requests ++ [DocsRequest.insertText none currentIndex (date ++ "\n\n")]
        let dateStart := currentIndex
        let currentIndex := currentIndex + date.length + 2
        (requests ++
          [DocsRequest.updateParagraphStyle ⟨dateStart, currentIndex⟩
            { alignment := some "CENTER" } "alignment"], currentIndex)
    | none => (requests, currentIndex)
  requests ++ [.insertPageBreak currentIndex]

/-- `GoogleDocsService.addHeaderRequests` (part_003 lines 642-677, second
revision). -/
def addHeaderRequests (requests : List DocsRequest) (headers : HeadersSpec) :
    List DocsRequest :=
  let requests := requests ++ [.createHeader "DEFAULT" 1]
  let requests :=
    match headers.defaultHeader with
    | some t => if t = "" then requests else requests ++ [.insertText (some "header") 0 t]
    | none => requests
  match headers.firstPage with
  | some t =>
    if t = "" then requests
    else requests ++ [.createHeader "FIRST_PAGE" 1, .insertText (some "first_header") 0 t]
  | none => requests

/-- `GoogleDocsService.addFooterRequests` (part_003 lines 679-694, second
revision). -/
def addFooterRequests (requests : List DocsRequest) (footer : String) :
    List DocsRequest :=
  requests ++ [.createFooter "DEFAULT" 1, .insertText (some "footer") 0 footer]

/-- The body start index computed at part_003 lines 699-709: one plus the
total length of the text of every `insertText` request already queued. -/
def bodyStartIndex (requests : List DocsRequest) : Nat :=
  requests.foldl
    (fun acc r =>
      match r with
      | .insertText _ _ text => acc + text.length
      | _ => acc)
    1

/-- The per-section loop of `addBodyContentRequests` (part_003 lines
711-754, second revision): insert the section text, then the run-level and
paragraph-level style updates when their field lists are nonempty. -/
def bodySectionRequests (currentIndex : Nat) : List DocumentSection → List DocsRequest
  | [] => []
  | sec :: rest =>
    let styleReqs : List DocsRequest :=
      match sec.style with
      | none => []
      | some st =>
        let (textStyle, textFields) := applyTextStyle st
        let (paragraphStyle, paragraphFields) := applyParagraphStyle st
        (if textFields.length > 0 then
          [.updateTextStyle ⟨currentIndex, currentIndex + sec.text.length⟩
            textStyle (String.intercalate "," textFields)]
         else []) ++
        (if paragraphFields.length > 0 then
          [.updateParagraphStyle ⟨currentIndex, currentIndex + sec.text.length⟩
            paragraphStyle (String.intercalate "," paragraphFields)]
         else [])
    .insertText none currentIndex sec.text :: styleReqs ++
      bodySectionRequests (currentIndex + sec.text.length) rest

/-- `GoogleDocsService.addBodyContentRequests` (part_003 lines 696-755,
second revision). -/
def addBodyContentRequests (requests : List DocsRequest) (body : List DocumentSection) :
    List DocsRequest :=
  requests ++ bodySectionRequests (bodyStartIndex requests) body

/-- The batch-update request sequence built by the rich
`GoogleDocsService.updateDocument` (part_003 lines 875-992): first a
`deleteContentRange` over the document's prior content range `[1, endIndex)`
(with `endIndex` read from the document, defaulting to 1), then the
replacement content per the union branch taken. -/
def buildUpdateDocumentRequests (content : DocUpdateContent) (endIndex : Nat) :
    List DocsRequest :=
  let requests : List DocsRequest := [.deleteContentRange ⟨1, endIndex⟩]
  match content with
  | .plain text =>
    requests ++
      [.insertText none 1 text,
       .updateParagraphStyle ⟨1, text.length + 1⟩
         { namedStyleType := some "NORMAL_TEXT" } "namedStyleType"]
  | .section sec =>
    let requests := requests ++ [.insertText none 1 sec.text]
    match sec.style with
    | none => requests
    | some st =>
      let (textStyle, textFields) := applyTextStyle st
      let (paragraphStyle, paragraphFields) := applyParagraphStyle st
      requests ++
        (if textFields.length > 0 then
          [.updateTextStyle ⟨1, sec.text.length + 1⟩
            textStyle (String.intercalate "," textFields)]
         else []) ++
        (if paragraphFields.length > 0 then
          [.updateParagraphStyle ⟨1, sec.text.length + 1⟩
            paragraphStyle (String.intercalate "," paragraphFields)]
         else [])
  | .full dc =>
    let requests := match dc.coverPage with
      | some cp => addCoverPageRequests requests cp
      | none => requests
    let requests := match dc.headers with
      | some h => addHeaderRequests requests h
      | none => requests
    let requests := match dc.footer with
      | some f => if f = "" then requests else addFooterRequests requests f
      | none => requests
    match dc.body with
    | some b => addBodyContentRequests requests b
    | none => requests

/-- Whether a Docs request is a paragraph-style update. -/
def isUpdateParagraphStyle : DocsRequest → Bool
  | .updateParagraphStyle _ _ _ => true
  | _ => false

/-! ## Tool input records and their zod validation
(src/src/types/schemas.ts)

Each `XSchema.parse` call of the dispatcher is modelled as a function from a
parsed JSON argument record to `Except String X`; the error string stands for
the thrown `ZodError`. zod object schemas strip unknown keys, reject
non-objects, and treat `null` as a type mismatch rather than as absent. -/

structure SearchInput where
  query : String
  page_size : Rat
deriving DecidableEq

structure CreateFolder where
  name : String
  parents : Option (List String) := none
  description : Option String := none
deriving DecidableEq

structure CreateFile where
  name : String
  mimeType : String
  parents : Option (List String) := none
  description : Option String := none
  content : String
deriving DecidableEq

structure UpdateFile where
  fileId : String
  content : String
  mimeType : String
deriving DecidableEq

structure GetFile where
  fileId : String
  fields : Option String := none
deriving DecidableEq

structure ListFiles where
  query : Option String := none
  pageSize : Option Rat := none
  fields : Option String := none
  orderBy : Option String := none
deriving DecidableEq

structure UpdateFileMetadata where
  fileId : String
  name : Option String := none
  description : Option String := none
  mimeType : Option String := none
  addParents : Option (List String) := none
  removeParents : Option (List String) := none
deriving DecidableEq

structure CreateDocInput where
  title : String
deriving DecidableEq

structure GetDocContentInput where
  document_id : String
deriving DecidableEq

/-- The runtime `UpdateDocContentInputSchema` record (schemas.ts lines
75-78): a document id plus a raw array of native API requests. -/
structure UpdateDocContentInput where
  document_id : String
  requests : List Json

structure GridProperties where
  rowCount : Option Rat := none
  columnCount : Option Rat := none
  frozenRowCount : Option Rat := none
  frozenColumnCount : Option Rat := none
deriving DecidableEq

structure SheetSpec where
  title : String
  gridProperties : Option GridProperties := none
deriving DecidableEq

structure CreateSpreadsheet where
  title : String
  sheets : Option (List SheetSpec) := none
deriving DecidableEq

structure UpdateValues where
  spreadsheetId : String
  range : String
  values : List (List String)
  majorDimension : Option String := none
deriving DecidableEq

structure DimensionOperationInput where
  spreadsheetId : String
  sheetId : Rat
  dimension : String
  startIndex : Rat
  endIndex : Option Rat := none
  operation : String
  size : Option Rat := none
deriving DecidableEq

structure GetValues where
  spreadsheetId : String
  range : String
  majorDimension : Option String := none
deriving DecidableEq

/-- zod object check: anything but an object record is rejected. -/
def asObj (j : Json) : Except String (List (String × Json)) :=
  match j with
  | .obj kvs => .ok kvs
  | _ => .error "Expected object"

def pStr (j : Json) : Except String String :=
  match j with
  | .str s => .ok s
  | _ => .error "Expected string"

def pNum (j : Json) : Except String Rat :=
  match j with
  | .num q => .ok q
  | _ => .error "Expected number"

def pBool (j : Json) : Except String Bool :=
  match j with
  | .bool b => .ok b
  | _ => .error "Expected boolean"

/-- zod `z.enum([...])`: a string drawn from the allowed list. -/
def pEnum (allowed : List String) (j : Json) : Except String String :=
  match j with
  | .str s => if s ∈ allowed then .ok s else .error "Invalid enum value"
  | _ => .error "Expected string"

/-- zod `z.number().min(lo)`. -/
def pNumMin (lo : Rat) (j : Json) : Except String Rat := do
  let q ← pNum j
  if q < lo then .error "Number too small" else .ok q

/-- zod `z.number().min(0).max(1)`. -/
def pNum01 (j : Json) : Except String Rat := do
  let q ← pNum j
  if q < 0 then .error "Number too small"
  else if 1 < q then .error "Number too big"
  else .ok q

def pArrOf (p : Json → Except String α) (j : Json) : Except String (List α) :=
  match j with
  | .arr l => l.mapM p
  | _ => .error "Expected array"

/-- A required object field. -/
def reqField (kvs : List (String × Json)) (k : String)
    (p : Json → Except String α) : Except String α :=
  match jlookup kvs k with
  | none => .error (k ++ ": Required")
  | some j => p j

/-- An `.optional()` object field (absent is fine, `null` is not). -/
def optField (kvs : List (String × Json)) (k : String)
    (p : Json → Except String α) : Except String (Option α) :=
  match jlookup kvs k with
  | none => .ok none
  | some j => (p j).map some

/-- A field with a zod `.default(d)`. -/
def defField (kvs : List (String × Json)) (k : String)
    (p : Json → Except String α) (d : α) : Except String α :=
  match jlookup kvs k with
  | none => .ok d
  | some j => p j

def parseSearchInput (j : Json) : Except String SearchInput := do
  let kvs ← asObj j
  let query ← reqField kvs "query" pStr
  let page_size ← defField kvs "page_size" pNum 10
  .ok ⟨query, page_size⟩

def parseCreateFolder (j : Json) : Except String CreateFolder := do
  let kvs ← asObj j
  let name ← reqField kvs "name" pStr
  let parents ← optField kvs "parents" (pArrOf pStr)
  let description ← optField kvs "description" pStr
  .ok ⟨name, parents, description⟩

/-- The `content` union `z.union([z.string(), z.instanceof(Buffer)])`: a
JSON argument record can never carry a `Buffer` instance, so the union
reduces to the string branch. -/
def parseCreateFile (j : Json) : Except String CreateFile := do
  let kvs ← asObj j
  let name ← reqField kvs "name" pStr
  let mimeType ← reqField kvs "mimeType" pStr
  let parents ← optField kvs "parents" (pArrOf pStr)
  let description ← optField kvs "description" pStr
  let content ← reqField kvs "content" pStr
  .ok ⟨name, mimeType, parents, description, content⟩

def parseUpdateFile (j : Json) : Except String UpdateFile := do
  let kvs ← asObj j
  let fileId ← reqField kvs "fileId" pStr
  let content ← reqField kvs "content" pStr
  let mimeType ← reqField kvs "mimeType" pStr
  .ok ⟨fileId, content, mimeType⟩

def parseGetFile (j : Json) : Except String GetFile := do
  let kvs ← asObj j
  let fileId ← reqField kvs "fileId" pStr
  let fields ← optField kvs "fields" pStr
  .ok ⟨fileId, fields⟩

def parseListFiles (j : Json) : Except String ListFiles := do
  let kvs ← asObj j
  let query ← optField kvs "query" pStr
  let pageSize ← optField kvs "pageSize" pNum
  let fields ← optField kvs "fields" pStr
  let orderBy ← optField kvs "orderBy" pStr
  .ok ⟨query, pageSize, fields, orderBy⟩

def parseUpdateFileMetadata (j : Json) : Except String UpdateFileMetadata := do
  let kvs ← asObj j
  let fileId ← reqField kvs "fileId" pStr
  let name ← optField kvs "name" pStr
  let description ← optField kvs "description" pStr
  let mimeType ← optField kvs "mimeType" pStr
  let addParents ← optField kvs "addParents" (pArrOf pStr)
  let removeParents ← optField kvs "removeParents" (pArrOf pStr)
  .ok ⟨fileId, name, description, mimeType, addParents, removeParents⟩

def parseCreateDocInput (j : Json) : Except String CreateDocInput := do
  let kvs ← asObj j
  let title ← reqField kvs "title" pStr
  .ok ⟨title⟩

def parseGetDocContentInput (j : Json) : Except String GetDocContentInput := do
  let kvs ← asObj j
  let document_id ← reqField kvs "document_id" pStr
  .ok ⟨document_id⟩

/-- `UpdateDocContentInputSchema.parse` (schemas.ts lines 75-78): requires
`document_id: z.string()` and `requests: z.array(z.any())`. -/
def parseUpdateDocContentInput (j : Json) : Except String UpdateDocContentInput := do
  let kvs ← asObj j
  let document_id ← reqField kvs "document_id" pStr
  let requests ←
    match jlookup kvs "requests" with
    | none => .error "requests: Required"
    | some (.arr l) => .ok l
    | some _ => .error "requests: Expected array"
  .ok ⟨document_id, requests⟩

def parseGridProperties (j : Json) : Except String GridProperties := do
  let kvs ← asObj j
  let rowCount ← optField kvs "rowCount" (pNumMin 1)
  let columnCount ← optField kvs "columnCount" (pNumMin 1)
  let frozenRowCount ← optField kvs "frozenRowCount" (pNumMin 0)
  let frozenColumnCount ← optField kvs "frozenColumnCount" (pNumMin 0)
  .ok ⟨rowCount, columnCount, frozenRowCount, frozenColumnCount⟩

def parseSheetSpec (j : Json) : Except String SheetSpec := do
  let kvs ← asObj j
  let title ← reqField kvs "title" pStr
  let gridProperties ← optField kvs "gridProperties" parseGridProperties
  .ok ⟨title, gridProperties⟩

def parseCreateSpreadsheet (j : Json) : Except String CreateSpreadsheet := do
  let kvs ← asObj j
  let title ← reqField kvs "title" pStr
  let sheets ← optField kvs "sheets" (pArrOf parseSheetSpec)
  .ok ⟨title, sheets⟩

def parseUpdateValues (j : Json) : Except String UpdateValues := do
  let kvs ← asObj j
  let spreadsheetId ← reqField kvs "spreadsheetId" pStr
  let range ← reqField kvs "range" pStr
  let values ← reqField kvs "values" (pArrOf (pArrOf pStr))
  let majorDimension ← optField kvs "majorDimension" (pEnum ["ROWS", "COLUMNS"])
  .ok ⟨spreadsheetId, range, values, majorDimension⟩

def parseSheetsColor (j : Json) : Except String SheetsColor := do
  let kvs ← asObj j
  let red ← reqField kvs "red" pNum01
  let green ← reqField kvs "green" pNum01
  let blue ← reqField kvs "blue" pNum01
  let alpha ← optField kvs "alpha" pNum01
  .ok ⟨red, green, blue, alpha⟩

def parseSheetsTextFormat (j : Json) : Except String SheetsTextFormat := do
  let kvs ← asObj j
  let foregroundColor ← optField kvs "foregroundColor" parseSheetsColor
  let fontFamily ← optField kvs "fontFamily" pStr
  let fontSize ← optField kvs "fontSize" pNum
  let bold ← optField kvs "bold" pBool
  let italic ← optField kvs "italic" pBool
  let strikethrough ← optField kvs "strikethrough" pBool
  let underline ← optField kvs "underline" pBool
  .ok ⟨foregroundColor, fontFamily, fontSize, bold, italic, strikethrough, underline⟩

def parseBorderSpec (j : Json) : Except String BorderSpec := do
  let kvs ← asObj j
  let style ← reqField kvs "style" (pEnum ["SOLID", "DOTTED", "DASHED"])
  let color ← reqField kvs "color" parseSheetsColor
  .ok ⟨style, color⟩

def parseSheetsBorders (j : Json) : Except String SheetsBorders := do
  let kvs ← asObj j
  let top ← optField kvs "top" parseBorderSpec
  let bottom ← optField kvs "bottom" parseBorderSpec
  let left ← optField kvs "left" parseBorderSpec
  let right ← optField kvs "right" parseBorderSpec
  .ok ⟨top, bottom, left, right⟩

def parseSheetsNumberFormat (j : Json) : Except String SheetsNumberFormat := do
  let kvs ← asObj j
  let type ← reqField kvs "type"
    (pEnum ["TEXT", "NUMBER", "CURRENCY", "DATE", "TIME", "DATETIME", "PERCENTAGE"])
  let pattern ← optField kvs "pattern" pStr
  .ok ⟨type, pattern⟩

def parseCellFormat (j : Json) : Except String CellFormat := do
  let kvs ← asObj j
  let backgroundColor ← optField kvs "backgroundColor" parseSheetsColor
  let textFormat ← optField kvs "textFormat" parseSheetsTextFormat
  let horizontalAlignment ← optField kvs "horizontalAlignment" (pEnum ["LEFT", "CENTER", "RIGHT"])
  let verticalAlignment ← optField kvs "verticalAlignment" (pEnum ["TOP", "MIDDLE", "BOTTOM"])
  let borders ← optField kvs "borders" parseSheetsBorders
  let numberFormat ← optField kvs "numberFormat" parseSheetsNumberFormat
  .ok ⟨backgroundColor, textFormat, horizontalAlignment, verticalAlignment, borders, numberFormat⟩

def parseFormatCells (j : Json) : Except String FormatCells := do
  let kvs ← asObj j
  let spreadsheetId ← reqField kvs "spreadsheetId" pStr
  let range ← reqField kvs "range" pStr
  let format ← reqField kvs "format" parseCellFormat
  .ok ⟨spreadsheetId, range, format⟩

def parseDimensionOperation (j : Json) : Except String DimensionOperationInput := do
  let kvs ← asObj j
  let spreadsheetId ← reqField kvs "spreadsheetId" pStr
  let sheetId ← reqField kvs "sheetId" pNum
  let dimension ← reqField kvs "dimension" (pEnum ["ROWS", "COLUMNS"])
  let startIndex ← reqField kvs "startIndex" pNum
  let endIndex ← optField kvs "endIndex" pNum
  let operation ← reqField kvs "operation" (pEnum ["INSERT", "DELETE", "RESIZE"])
  let size ← optField kvs "size" pNum
  .ok ⟨spreadsheetId, sheetId, dimension, startIndex, endIndex, operation, size⟩

def parseMergeCells (j : Json) : Except String MergeCells := do
  let kvs ← asObj j
  let spreadsheetId ← reqField kvs "spreadsheetId" pStr
  let range ← reqField kvs "range" pStr
  .ok ⟨spreadsheetId, range⟩

def parseGetValues (j : Json) : Except String GetValues := do
  let kvs ← asObj j
  let spreadsheetId ← reqField kvs "spreadsheetId" pStr
  let range ← reqField kvs "range" pStr
  let majorDimension ← optField kvs "majorDimension" (pEnum ["ROWS", "COLUMNS"])
  .ok ⟨spreadsheetId, range, majorDimension⟩

/-! ## Tool dispatcher (src/src/server.ts, `setupCallTool`, lines 536-722)

The Google service methods perform network I/O; each is abstracted as an
oracle function of `ServiceEnv` supplying its outcome, while the dispatch,
validation, success-text formatting and the surrounding try/catch are
translated faithfully. The trace component records which service method was
invoked (the call is recorded whether it succeeds or throws). -/

/-- Drive file metadata record (`drive_v3.Schema$File`, the fields this
repository projects). -/
structure DriveFile where
  id : Option String := none
  name : Option String := none
  mimeType : Option String := none
  modifiedTime : Option String := none
  size : Option String := none
  description : Option String := none
  parents : Option (List String) := none
deriving DecidableEq

/-- JS template-literal rendering of a possibly-undefined string. -/
def jsShow (s : Option String) : String :=
  match s with
  | some s => s
  | none => "undefined"

/-- Serialization of a Drive file record for `JSON.stringify(file, null, 2)`
(absent fields dropped, as for any JS object). -/
def driveFileToJson (f : DriveFile) : Json :=
  Json.obj
    ((match f.id with | some s => [("id", Json.str s)] | none => []) ++
     (match f.name with | some s => [("name", Json.str s)] | none => []) ++
     (match f.mimeType with | some s => [("mimeType", Json.str s)] | none => []) ++
     (match f.modifiedTime with | some s => [("modifiedTime", Json.str s)] | none => []) ++
     (match f.size with | some s => [("size", Json.str s)] | none => []) ++
     (match f.description with | some s => [("description", Json.str s)] | none => []) ++
     (match f.parents with
      | some l => [("parents", Json.arr (l.map Json.str))]
      | none => []))

/-- Serialization of a values grid for `JSON.stringify(values, null, 2)`. -/
def valuesToJson (values : List (List String)) : Json :=
  Json.arr (values.map fun row => Json.arr (row.map Json.str))

/-- A thrown JavaScript value: an `Error` instance (message plus the
optional `cause` property) or a non-`Error` value. -/
inductive Thrown where
  | jsError (message : String) (cause : Option Json)
  | jsValue (v : Json)

/-- An MCP content block; this server only ever emits text blocks. -/
inductive ContentBlock where
  | text (t : String)

/-- An MCP tool-call response. -/
structure ToolResponse where
  content : List ContentBlock
  isError : Bool

/-- One invocation of a Google service method, with its validated input. -/
inductive ServiceCall where
  | searchFiles (input : SearchInput)
  | createFolder (input : CreateFolder)
  | createFile (input : CreateFile)
  | updateFile (input : UpdateFile)
  | getFile (input : GetFile)
  | listFiles (input : ListFiles)
  | updateFileMetadata (input : UpdateFileMetadata)
  | createDocument (input : CreateDocInput)
  | getDocumentContent (input : GetDocContentInput)
  | updateDocument (input : UpdateDocContentInput)
  | createSpreadsheet (input : CreateSpreadsheet)
  | updateValues (input : UpdateValues)
  | formatCells (input : FormatCells)
  | dimensionOperation (input : DimensionOperationInput)
  | mergeCells (input : MergeCells)
  | getValues (input : GetValues)

/-- Outcome oracles for the sixteen service methods the dispatcher can
invoke (`listFiles` yields the raw `res.data` payload, which the dispatcher
stringifies). -/
structure ServiceEnv where
  searchFiles : SearchInput → Except Thrown (List DriveFile)
  createFolder : CreateFolder → Except Thrown DriveFile
  createFile : CreateFile → Except Thrown DriveFile
  updateFile : UpdateFile → Except Thrown DriveFile
  getFile : GetFile → Except Thrown DriveFile
  listFiles : ListFiles → Except Thrown Json
  updateFileMetadata : UpdateFileMetadata → Except Thrown DriveFile
  createDocument : CreateDocInput → Except Thrown String
  getDocumentContent : GetDocContentInput → Except Thrown String
  updateDocument : UpdateDocContentInput → Except Thrown Unit
  createSpreadsheet : CreateSpreadsheet → Except Thrown String
  updateValues : UpdateValues → Except Thrown Unit
  formatCells : FormatCells → Except Thrown Unit
  dimensionOperation : DimensionOperationInput → Except Thrown Unit
  mergeCells : MergeCells → Except Thrown Unit
  getValues : GetValues → Except Thrown (List (List String))

/-- The fixed tool catalog advertised by `setupListTools`
(src/src/server.ts lines 103-534) and dispatched on by `setupCallTool`. -/
def toolCatalog : List String :=
  ["search", "drive_create_folder", "drive_create_file", "drive_update_file",
   "drive_get_file", "drive_list_files", "drive_update_metadata",
   "docs_create", "docs_get_content", "docs_update_content",
   "sheets_create", "sheets_update_values", "sheets_format_cells",
   "sheets_dimension_operation", "sheets_merge_cells", "sheets_get_values"]

/-- The `catch` block of `setupCallTool` (server.ts lines 703-720): builds
the human-readable failure message, appending the JSON-serialized `cause`
payload when the thrown `Error` carries one, or the JSON serialization of a
non-`Error` thrown value. -/
def errorText (th : Thrown) : String :=
  match th with
  | .jsError message cause =>
    "An error occurred: " ++ message ++
      (match cause with
       | some c => "\nCause: " ++ stringify c
       | none => "")
  | .jsValue v => "An error occurred: " ++ stringify v

/-- The `try` block of `setupCallTool` (server.ts lines 542-702): the switch
over the tool name, each case validating the arguments and invoking one
service method. The default case throws `new Error("Tool not found")`. -/
def dispatchTool (env : ServiceEnv) (name : String) (args : Json) :
    Except Thrown ToolResponse × List ServiceCall :=
  if name = "search" then
    match parseSearchInput args with
    | .error m => (.error (.jsError m none), [])
    | .ok input =>
      match env.searchFiles input with
      | .error th => (.error th, [.searchFiles input])
      | .ok files =>
        let fileList := String.intercalate "\n"
          (files.map fun file => jsShow file.name ++ " (" ++ jsShow file.mimeType ++ ")")
        (.ok ⟨[.text ("Found " ++ toString files.length ++ " files:\n" ++ fileList)], false⟩,
         [.searchFiles input])
  else if name = "drive_create_folder" then
    match parseCreateFolder args with
    | .error m => (.error (.jsError m none), [])
    | .ok input =>
      match env.createFolder input with
      | .error th => (.error th, [.createFolder input])
      | .ok folder =>
        (.ok ⟨[.text ("Created folder with ID: " ++ jsShow folder.id)], false⟩,
         [.createFolder input])
  else if name = "drive_create_file" then
    match parseCreateFile args with
    | .error m => (.error (.jsError m none), [])
    | .ok input =>
      match env.createFile input with
      | .error th => (.error th, [.createFile input])
      | .ok file =>
        (.ok ⟨[.text ("Created file with ID: " ++ jsShow file.id)], false⟩,
         [.createFile input])
  else if name = "drive_update_file" then
    match parseUpdateFile args with
    | .error m => (.error (.jsError m none), [])
    | .ok input =>
      match env.updateFile input with
      | .error th => (.error th, [.updateFile input])
      | .ok _ =>
        (.ok ⟨[.text "File updated successfully"], false⟩, [.updateFile input])
  else if name = "drive_get_file" then
    match parseGetFile args with
    | .error m => (.error (.jsError m none), [])
    | .ok input =>
      match env.getFile input with
      | .error th => (.error th, [.getFile input])
      | .ok file =>
        (.ok ⟨[.text (stringify (driveFileToJson file))], false⟩, [.getFile input])
  else if name = "drive_list_files" then
    match parseListFiles args with
    | .error m => (.error (.jsError m none), [])
    | .ok input =>
      match env.listFiles input with
      | .error th => (.error th, [.listFiles input])
      | .ok files =>
        (.ok ⟨[.text (stringify files)], false⟩, [.listFiles input])
  else if name = "drive_update_metadata" then
    match parseUpdateFileMetadata args with
    | .error m => (.error (.jsError m none), [])
    | .ok input =>
      match env.updateFileMetadata input with
      | .error th => (.error th, [.updateFileMetadata input])
      | .ok _ =>
        (.ok ⟨[.text "File metadata updated successfully"], false⟩,
         [.updateFileMetadata input])
  else if name = "docs_create" then
    match parseCreateDocInput args with
    | .error m => (.error (.jsError m none), [])
    | .ok input =>
      match env.createDocument input with
      | .error th => (.error th, [.createDocument input])
      | .ok documentId =>
        (.ok ⟨[.text ("Created document with ID: " ++ documentId)], false⟩,
         [.createDocument input])
  else if name = "docs_get_content" then
    match parseGetDocContentInput args with
    | .error m => (.error (.jsError m none), [])
    | .ok input =>
      match env.getDocumentContent input with
      | .error th => (.error th, [.getDocumentContent input])
      | .ok content =>
        (.ok ⟨[.text content], false⟩, [.getDocumentContent input])
  else if name = "docs_update_content" then
    match parseUpdateDocContentInput args with
    | .error m => (.error (.jsError m none), [])
    | .ok input =>
      match env.updateDocument input with
      | .error th => (.error th, [.updateDocument input])
      | .ok _ =>
        (.ok ⟨[.text "Document updated successfully"], false⟩, [.updateDocument input])
  else if name = "sheets_create" then
    match parseCreateSpreadsheet args with
    | .error m => (.error (.jsError m none), [])
    | .ok input =>
      match env.createSpreadsheet input with
      | .error th => (.error th, [.createSpreadsheet input])
      | .ok spreadsheetId =>
        (.ok ⟨[.text ("Created spreadsheet with ID: " ++ spreadsheetId)], false⟩,
         [.createSpreadsheet input])
  else if name = "sheets_update_values" then
    match parseUpdateValues args with
    | .error m => (.error (.jsError m none), [])
    | .ok input =>
      match env.updateValues input with
      | .error th => (.error th, [.updateValues input])
      | .ok _ =>
        (.ok ⟨[.text "Values updated successfully"], false⟩, [.updateValues input])
  else if name = "sheets_format_cells" then
    match parseFormatCells args with
    | .error m => (.error (.jsError m none), [])
    | .ok input =>
      match env.formatCells input with
      | .error th => (.error th, [.formatCells input])
      | .ok _ =>
        (.ok ⟨[.text "Cell formatting applied successfully"], false⟩,
         [.formatCells input])
  else if name = "sheets_dimension_operation" then
    match parseDimensionOperation args with
    | .error m => (.error (.jsError m none), [])
    | .ok input =>
      match env.dimensionOperation input with
      | .error th => (.error th, [.dimensionOperation input])
      | .ok _ =>
        (.ok ⟨[.text (input.operation ++ " operation completed successfully")], false⟩,
         [.dimensionOperation input])
  else if name = "sheets_merge_cells" then
    match parseMergeCells args with
    | .error m => (.error (.jsError m none), [])
    | .ok input =>
      match env.mergeCells input with
      | .error th => (.error th, [.mergeCells input])
      | .ok _ =>
        (.ok ⟨[.text "Cells merged successfully"], false⟩, [.mergeCells input])
  else if name = "sheets_get_values" then
    match parseGetValues args with
    | .error m => (.error (.jsError m none), [])
    | .ok input =>
      match env.getValues input with
      | .error th => (.error th, [.getValues input])
      | .ok values =>
        (.ok ⟨[.text (stringify (valuesToJson values))], false⟩, [.getValues input])
  else
    (.error (.jsError "Tool not found" none), [])

/-- The complete call-tool handler (try block plus catch block): a total
function — every thrown value is converted into a uniform failure response
with `isError := true`. -/
def callTool (env : ServiceEnv) (name : String) (args : Json) :
    ToolResponse × List ServiceCall :=
  match dispatchTool env name args with
  | (.ok r, trace) => (r, trace)
  | (.error th, trace) => (⟨[.text (errorText th)], true⟩, trace)

/-- An environment in which every service method throws the given value —
used to examine how adapter-level errors surface. -/
def allErrEnv (th : Thrown) : ServiceEnv :=
  ⟨fun _ => .error th, fun _ => .error th, fun _ => .error th, fun _ => .error th,
   fun _ => .error th, fun _ => .error th, fun _ => .error th, fun _ => .error th,
   fun _ => .error th, fun _ => .error th, fun _ => .error th, fun _ => .error th,
   fun _ => .error th, fun _ => .error th, fun _ => .error th, fun _ => .error th⟩

/-- A response that is a failure carrying a single human-readable text
block. -/
def uniformFailure (r : ToolResponse) : Prop :=
  r.isError = true ∧ ∃ m, r.content = [ContentBlock.text m]

/-! ## The advertised `docs_update_content` input schema
(src/src/server.ts lines 286-371)

A JSON-Schema checker for the catalog entry: `type: object`, properties
`document_id` (string) and `content` (anyOf string / single styled section /
full document descriptor), `required: [document_id, content]`. JSON Schema
semantics: properties constrain a key only when it is present, and
additional properties are unconstrained (no `additionalProperties: false`
appears in the source). -/

/-- A property that, when present, must be a number in `[0, 1]`. -/
def advPropNum01 (kvs : List (String × Json)) (k : String) : Bool :=
  match jlookup kvs k with
  | none => true
  | some (.num q) => decide (0 ≤ q) && decide (q ≤ 1)
  | some _ => false

/-- A property that, when present, must be a boolean. -/
def advPropBool (kvs : List (String × Json)) (k : String) : Bool :=
  match jlookup kvs k with
  | none => true
  | some (.bool _) => true
  | some _ => false

/-- A property that, when present, must be a string. -/
def advPropStr (kvs : List (String × Json)) (k : String) : Bool :=
  match jlookup kvs k with
  | none => true
  | some (.str _) => true
  | some _ => false

/-- A property that, when present, must be a number. -/
def advPropNum (kvs : List (String × Json)) (k : String) : Bool :=
  match jlookup kvs k with
  | none => true
  | some (.num _) => true
  | some _ => false

/-- The rgb color object schema of the catalog entry. -/
def advColorValid (j : Json) : Bool :=
  match j with
  | .obj kvs => advPropNum01 kvs "red" && advPropNum01 kvs "green" && advPropNum01 kvs "blue"
  | _ => false

/-- The style object schema of the catalog entry (bold, italic, fontSize,
foregroundColor). -/
def advStyleValid (j : Json) : Bool :=
  match j with
  | .obj kvs =>
    advPropBool kvs "bold" && advPropBool kvs "italic" && advPropNum kvs "fontSize" &&
      (match jlookup kvs "foregroundColor" with
       | none => true
       | some c => advColorValid c)
  | _ => false

/-- The single styled section schema (requires `text`). -/
def advSectionValid (j : Json) : Bool :=
  match j with
  | .obj kvs =>
    (match jlookup kvs "text" with
     | some (.str _) => true
     | _ => false) &&
    (match jlookup kvs "style" with
     | none => true
     | some s => advStyleValid s)
  | _ => false

/-- The cover page schema (requires `title`). -/
def advCoverPageValid (j : Json) : Bool :=
  match j with
  | .obj kvs =>
    (match jlookup kvs "title" with
     | some (.str _) => true
     | _ => false) &&
    advPropStr kvs "subtitle" && advPropStr kvs "date"
  | _ => false

/-- The headers schema. -/
def advHeadersValid (j : Json) : Bool :=
  match j with
  | .obj kvs => advPropStr kvs "default" && advPropStr kvs "firstPage"
  | _ => false

/-- The full document descriptor schema (no required keys of its own). -/
def advFullValid (j : Json) : Bool :=
  match j with
  | .obj kvs =>
    (match jlookup kvs "coverPage" with
     | none => true
     | some c => advCoverPageValid c) &&
    (match jlookup kvs "headers" with
     | none => true
     | some h => advHeadersValid h) &&
    advPropStr kvs "footer" &&
    (match jlookup kvs "body" with
     | none => true
     | some (.arr l) => l.all advSectionValid
     | some _ => false)
  | _ => false

/-- The `content` property's `anyOf`. -/
def advContentValid (j : Json) : Bool :=
  (match j with
   | .str _ => true
   | _ => false) ||
  advSectionValid j || advFullValid j

/-- The advertised `docs_update_content` input schema, as a whole. -/
def advertisedDocsUpdateContentValid (j : Json) : Bool :=
  match j with
  | .obj kvs =>
    (match jlookup kvs "document_id" with
     | some (.str _) => true
     | _ => false) &&
    (match jlookup kvs "content" with
     | some c => advContentValid c
     | none => false)
  | _ => false

/-- Whether an argument record carries a `requests` field holding an
array. -/
def hasRequestsArrayField (j : Json) : Bool :=
  match j with
  | .obj kvs =>
    match jlookup kvs "requests" with
    | some (.arr _) => true
    | _ => false
  | _ => false

/-! ## Shared helper lemmas -/

/-- Per-character effect of the two escape passes taken together. -/
def escChar (c : Char) : List Char :=
  if c = bslash then [bslash, bslash]
  else if c = squote then [bslash, squote]
  else [c]

theorem escapeQuery_cons (c : Char) (cs : List Char) :
    escapeQuery (c :: cs) = escChar c ++ escapeQuery cs := by
  by_cases hb : c = bslash
  · simp [escapeQuery, escapeBackslashes, escapeSingleQuotes, escChar, hb]
    simp [show ¬ (bslash = squote) by decide]
  · by_cases hq : c = squote
    · simp [escapeQuery, escapeBackslashes, escapeSingleQuotes, escChar, hb, hq]
      simp [show ¬ (squote = bslash) by decide]
    · simp [escapeQuery, escapeBackslashes, escapeSingleQuotes, escChar, hb, hq]

theorem noUnescapedQuote_escapeQuery (q : List Char) :
    noUnescapedQuote (escapeQuery q) = true := by
  induction q with
  | nil => rfl
  | cons c cs ih =>
    rw [escapeQuery_cons]
    by_cases hb : c = bslash
    · simp [escChar, hb, noUnescapedQuote, ih]
    · by_cases hq : c = squote
      · simp [escChar, hb, hq, noUnescapedQuote, ih]
      · cases h : escapeQuery cs with
        | nil => simp [escChar, hb, hq, h, noUnescapedQuote]
        | cons d rest =>
          rw [h] at ih
          simp [escChar, hb, hq, h, noUnescapedQuote, ih]

theorem credsOfJson_credsToJson (c : Credentials) : credsOfJson (credsToJson c) = c := by
  obtain ⟨a1, r1, e1, t1, s1, i1⟩ := c
  rcases a1 with _ | a <;> rcases r1 with _ | r <;> rcases e1 with _ | e <;>
    rcases t1 with _ | t <;> rcases s1 with _ | s <;> rcases i1 with _ | i <;> rfl

theorem jsonFalsy_credsToJson (c : Credentials) : jsonFalsy (credsToJson c) = false := by
  simp [credsToJson, jsonFalsy]

/-! ## Concrete records used by the witnesses -/

def clientW : OAuth2Client := {}

def stateW : AuthState := ⟨none, none⟩

def fsW : FsState := ⟨none, none⟩

def oauthW : Json :=
  Json.obj [("installed",
    Json.obj [("client_id", Json.str "cid"), ("client_secret", Json.str "cs"),
              ("redirect_uris", Json.arr [Json.str "http://localhost"])])]

def cfgW : ClientConfig :=
  ⟨some (Json.str "cid"), some (Json.str "cs"), some (Json.str "http://localhost")⟩

def credJsonW : Json :=
  credsToJson { access_token := some "a", refresh_token := some "r", expiry_date := some 5 }

/-! ## Claim theorems -/

/-- C1: for every tool name outside the fixed sixteen-tool catalog, the
call-tool handler returns a response with `isError := true` holding the
single text block built from the thrown `Error("Tool not found")`, without
invoking any service; and when every service method of a recognized tool
throws, the handler still returns a failure response carrying one
human-readable text block — no exception escapes, `callTool` being total. -/
theorem callTool_error_handling :
    (∀ (env : ServiceEnv) (name : String) (args : Json), name ∉ toolCatalog →
      callTool env name args =
        (⟨[ContentBlock.text "An error occurred: Tool not found"], true⟩, [])) ∧
    (∀ (th : Thrown) (name : String) (args : Json), name ∈ toolCatalog →
      uniformFailure (callTool (allErrEnv th) name args).1) := by
  constructor
  · intro env name args h
    simp only [toolCatalog, List.mem_cons, List.not_mem_nil, or_false, not_or] at h
    obtain ⟨h1, h2, h3, h4, h5, h6, h7, h8, h9, h10, h11, h12, h13, h14, h15, h16⟩ := h
    simp [callTool, dispatchTool, h1, h2, h3, h4, h5, h6, h7, h8, h9, h10, h11, h12,
          h13, h14, h15, h16, errorText]
  · intro th name args h
    simp only [toolCatalog, List.mem_cons, List.not_mem_nil, or_false] at h
    rcases h with rfl | rfl | rfl | rfl | rfl | rfl | rfl | rfl | rfl | rfl | rfl | rfl |
      rfl | rfl | rfl | rfl
    · cases hp : parseSearchInput args with
      | error m => simp [callTool, dispatchTool, hp, uniformFailure]
      | ok input => simp [callTool, dispatchTool, hp, allErrEnv, uniformFailure]
    · cases hp : parseCreateFolder args with
      | error m => simp [callTool, dispatchTool, hp, uniformFailure]
      | ok input => simp [callTool, dispatchTool, hp, allErrEnv, uniformFailure]
    · cases hp : parseCreateFile args with
      | error m => simp [callTool, dispatchTool, hp, uniformFailure]
      | ok input => simp [callTool, dispatchTool, hp, allErrEnv, uniformFailure]
    · cases hp : parseUpdateFile args with
      | error m => simp [callTool, dispatchTool, hp, uniformFailure]
      | ok input => simp [callTool, dispatchTool, hp, allErrEnv, uniformFailure]
    · cases hp : parseGetFile args with
      | error m => simp [callTool, dispatchTool, hp, uniformFailure]
      | ok input => simp [callTool, dispatchTool, hp, allErrEnv, uniformFailure]
    · cases hp : parseListFiles args with
      | error m => simp [callTool, dispatchTool, hp, uniformFailure]
      | ok input => simp [callTool, dispatchTool, hp, allErrEnv, uniformFailure]
    · cases hp : parseUpdateFileMetadata args with
      | error m => simp [callTool, dispatchTool, hp, uniformFailure]
      | ok input => simp [callTool, dispatchTool, hp, allErrEnv, uniformFailure]
    · cases hp : parseCreateDocInput args with
      | error m => simp [callTool, dispatchTool, hp, uniformFailure]
      | ok input => simp [callTool, dispatchTool, hp, allErrEnv, uniformFailure]
    · cases hp : parseGetDocContentInput args with
      | error m => simp [callTool, dispatchTool, hp, uniformFailure]
      | ok input => simp [callTool, dispatchTool, hp, allErrEnv, uniformFailure]
    · cases hp : parseUpdateDocContentInput args with
      | error m => simp [callTool, dispatchTool, hp, uniformFailure]
      | ok input => simp [callTool, dispatchTool, hp, allErrEnv, uniformFailure]
    · cases hp : parseCreateSpreadsheet args with
      | error m => simp [callTool, dispatchTool, hp, uniformFailure]
      | ok input => simp [callTool, dispatchTool, hp, allErrEnv, uniformFailure]
    · cases hp : parseUpdateValues args with
      | error m => simp [callTool, dispatchTool, hp, uniformFailure]
      | ok input => simp [callTool, dispatchTool, hp, allErrEnv, uniformFailure]
    · cases hp : parseFormatCells args with
      | error m => simp [callTool, dispatchTool, hp, uniformFailure]
      | ok input => simp [callTool, dispatchTool, hp, allErrEnv, uniformFailure]
    · cases hp : parseDimensionOperation args with
      | error m => simp [callTool, dispatchTool, hp, uniformFailure]
      | ok input => simp [callTool, dispatchTool, hp, allErrEnv, uniformFailure]
    · cases hp : parseMergeCells args with
      | error m => simp [callTool, dispatchTool, hp, uniformFailure]
      | ok input => simp [callTool, dispatchTool, hp, allErrEnv, uniformFailure]
    · cases hp : parseGetValues args with
      | error m => simp [callTool, dispatchTool, hp, uniformFailure]
      | ok input => simp [callTool, dispatchTool, hp, allErrEnv, uniformFailure]

/-- C1 witness: the unknown name `bogus_tool` yields exactly the
`Tool not found` failure response, and the recognized name `search` with a
throwing service yields a uniform failure response. -/
theorem callTool_error_handling_witness :
    callTool (allErrEnv (Thrown.jsValue Json.null)) "bogus_tool" Json.null =
      (⟨[ContentBlock.text "An error occurred: Tool not found"], true⟩, []) ∧
    uniformFailure (callTool (allErrEnv (Thrown.jsValue Json.null)) "search" Json.null).1 :=
  ⟨callTool_error_handling.1 (allErrEnv (Thrown.jsValue Json.null)) "bogus_tool" Json.null
      (by decide),
   callTool_error_handling.2 (Thrown.jsValue Json.null) "search" Json.null (by decide)⟩

/-- C2: with a client and credential record held in memory and an
`expiry_date` more than five minutes after the current time, `authenticate()`
returns the same held client, leaves the in-memory state and the credential
file untouched, and invokes the refresh endpoint zero times. -/
theorem authenticate_fresh_returns_client_unchanged :
    ∀ (a : OAuth2Client) (c : Credentials) (fs : FsState) (p : String) (now : Int)
      (rr : Except Unit Credentials) (e : Int),
      0 ≤ now → c.expiry_date = some e → now + fiveMinutes < e →
      authenticate ⟨some a, some c⟩ fs p now rr = ⟨.ok a, ⟨some a, some c⟩, fs, 0⟩ := by
  intro a c fs p now rr e h0 hexp hlt
  have h5 : fiveMinutes = 300000 := by decide
  have he : ¬ e = 0 := by omega
  simp [authenticate, expiryFresh, hexp, he, hlt]

/-- C2 witness: at time 0 with an expiry of 600000 ms, `authenticate()`
returns the held client and performs no refresh and no file write. -/
theorem authenticate_fresh_witness :
    authenticate ⟨some clientW, some { expiry_date := some 600000 }⟩ fsW "p" 0 (.error ()) =
      ⟨.ok clientW, ⟨some clientW, some { expiry_date := some 600000 }⟩, fsW, 0⟩ :=
  authenticate_fresh_returns_client_unchanged clientW { expiry_date := some 600000 } fsW "p" 0
    (.error ()) 600000 (by decide) rfl (by decide)

/-- C3: with a held credential record whose `expiry_date` is at or within
five minutes of the current time and which carries a (nonempty) refresh
token, a successful `authenticate()` call invokes the refresh endpoint
exactly once, stores the refreshed record in memory, writes its
serialization to the credential file, and returns the held client. -/
theorem authenticate_stale_refreshes_once :
    ∀ (a : OAuth2Client) (c newCreds : Credentials) (fs : FsState) (p : String) (now : Int)
      (rt : String) (e : Int),
      c.expiry_date = some e → e ≤ now + fiveMinutes →
      c.refresh_token = some rt → rt ≠ "" →
      authenticate ⟨some a, some c⟩ fs p now (.ok newCreds) =
        ⟨.ok a, ⟨some a, some newCreds⟩,
         { fs with credFile := some (credsToJson newCreds) }, 1⟩ := by
  intro a c newCreds fs p now rt e hexp hle hrt hne
  have hnlt : ¬ (now + fiveMinutes < e) := by omega
  rcases eq_or_ne e 0 with he | he <;>
    simp [authenticate, expiryFresh, hexp, he, hnlt, hrt, jsTruthyStr, hne, saveCredentials]

/-- C3 witness: at time 0 with an expiry of 100 ms and refresh token `rt`,
`authenticate()` refreshes once, stores and persists the new record, and
returns the client. -/
theorem authenticate_stale_witness :
    authenticate ⟨some clientW, some { expiry_date := some 100, refresh_token := some "rt" }⟩
        fsW "p" 0 (.ok { access_token := some "fresh", expiry_date := some 900000 }) =
      ⟨.ok clientW,
       ⟨some clientW, some { access_token := some "fresh", expiry_date := some 900000 }⟩,
       { fsW with
           credFile := some (credsToJson { access_token := some "fresh", expiry_date := some 900000 }) },
       1⟩ :=
  authenticate_stale_refreshes_once clientW
    { expiry_date := some 100, refresh_token := some "rt" }
    { access_token := some "fresh", expiry_date := some 900000 } fsW "p" 0 "rt" 100
    rfl (by decide) rfl (by decide)

/-- C4: for every A1-notation range string, the grid range placed into the
batch-update request emitted by `formatCells` and by `mergeCells` is the
constant sheet-0 bounding box of 1000 rows by 26 columns, independent of the
sheet name or cell bounds in the input. -/
theorem sheets_grid_range_constant :
    ∀ (fc : FormatCells) (mc : MergeCells),
      getGridRange fc.range = ⟨0, 0, 1000, 0, 26⟩ ∧
      formatCellsRequests fc =
        [SheetsRequest.repeatCell ⟨0, 0, 1000, 0, 26⟩ ⟨fc.format⟩ "userEnteredFormat"] ∧
      mergeCellsRequests mc = [SheetsRequest.mergeCells ⟨0, 0, 1000, 0, 26⟩ "MERGE_ALL"] := by
  intro fc mc
  exact ⟨rfl, rfl, rfl⟩

/-- C5: `searchFiles` escapes each backslash and then each single quote of
the query before embedding it as `fullText contains '<escaped>'`; the input
`foo's bar` yields the filter `fullText contains 'foo\'s bar'`, and for every
input the quoted literal contains no unescaped single quote. -/
theorem searchFiles_query_escaping :
    searchFilter ("foo".toList ++ [squote] ++ "s bar".toList) =
      "fullText contains ".toList ++ [squote] ++ "foo".toList ++ [bslash, squote] ++
        "s bar".toList ++ [squote] ∧
    ∀ q : List Char,
      searchFilter q = "fullText contains ".toList ++ [squote] ++ escapeQuery q ++ [squote] ∧
      noUnescapedQuote (escapeQuery q) = true := by
  refine ⟨by decide, fun q => ⟨rfl, noUnescapedQuote_escapeQuery q⟩⟩

/-- C6 counterexample: the advertised `docs_update_content` catalog schema
and the runtime `UpdateDocContentInputSchema` do not accept disjoint
argument shapes — the record carrying `document_id`, `content` and
`requests` at once is accepted by both (neither schema rejects additional
keys). -/
theorem docs_update_schemas_overlap :
    advertisedDocsUpdateContentValid
      (Json.obj [("document_id", Json.str "d"), ("content", Json.str "x"),
                 ("requests", Json.arr [])]) = true ∧
    (parseUpdateDocContentInput
      (Json.obj [("document_id", Json.str "d"), ("content", Json.str "x"),
                 ("requests", Json.arr [])])).isOk = true :=
  ⟨rfl, rfl⟩

/-- C6 (amended): every argument record lacking a `requests` array field —
in particular a record that follows the advertised catalog schema by
supplying only `document_id` and `content` — is rejected by the runtime
schema, the call returns a failure response with `isError := true`, and no
document update is issued; and the two schemas' required fields are
incompatible: a record supplying only `document_id` and `requests` fails the
advertised schema (though the schemas are not disjoint). -/
theorem docs_update_content_schema_mismatch :
    (∀ j : Json, hasRequestsArrayField j = false →
      (∃ m, parseUpdateDocContentInput j = .error m) ∧
      ∀ env : ServiceEnv,
        uniformFailure (callTool env "docs_update_content" j).1 ∧
        (callTool env "docs_update_content" j).2 = []) ∧
    (∀ dv rv : Json,
      advertisedDocsUpdateContentValid
        (Json.obj [("document_id", dv), ("requests", rv)]) = false) := by
  constructor
  · intro j h
    have hparse : ∃ m, parseUpdateDocContentInput j = .error m := by
      cases j with
      | obj kvs =>
        simp only [hasRequestsArrayField] at h
        cases hd : reqField kvs "document_id" pStr with
        | error m =>
          exact ⟨m, by simp [parseUpdateDocContentInput, asObj, hd, Bind.bind, Except.bind]⟩
        | ok doc =>
          cases hr : jlookup kvs "requests" with
          | none =>
            exact ⟨"requests: Required",
              by simp [parseUpdateDocContentInput, asObj, hd, hr, Bind.bind, Except.bind]⟩
          | some v =>
            cases v with
            | arr l => rw [hr] at h; simp at h
            | null =>
              exact ⟨"requests: Expected array",
                by simp [parseUpdateDocContentInput, asObj, hd, hr, Bind.bind, Except.bind]⟩
            | bool b =>
              exact ⟨"requests: Expected array",
                by simp [parseUpdateDocContentInput, asObj, hd, hr, Bind.bind, Except.bind]⟩
            | num q =>
              exact ⟨"requests: Expected array",
                by simp [parseUpdateDocContentInput, asObj, hd, hr, Bind.bind, Except.bind]⟩
            | str t =>
              exact ⟨"requests: Expected array",
                by simp [parseUpdateDocContentInput, asObj, hd, hr, Bind.bind, Except.bind]⟩
            | obj kvs2 =>
              exact ⟨"requests: Expected array",
                by simp [parseUpdateDocContentInput, asObj, hd, hr, Bind.bind, Except.bind]⟩
      | null => exact ⟨"Expected object", by simp [parseUpdateDocContentInput, asObj, Bind.bind, Except.bind]⟩
      | bool b => exact ⟨"Expected object", by simp [parseUpdateDocContentInput, asObj, Bind.bind, Except.bind]⟩
      | num q => exact ⟨"Expected object", by simp [parseUpdateDocContentInput, asObj, Bind.bind, Except.bind]⟩
      | str t => exact ⟨"Expected object", by simp [parseUpdateDocContentInput, asObj, Bind.bind, Except.bind]⟩
      | arr l => exact ⟨"Expected object", by simp [parseUpdateDocContentInput, asObj, Bind.bind, Except.bind]⟩
    refine ⟨hparse, fun env => ?_⟩
    obtain ⟨m, hm⟩ := hparse
    simp [callTool, dispatchTool, hm, uniformFailure]
  · intro dv rv
    simp [advertisedDocsUpdateContentValid, jlookup]

/-- C6 witness: the record supplying only `document_id` and `content` is
rejected at runtime and yields a no-call failure response, and the record
supplying only `document_id` and `requests` fails the advertised schema. -/
theorem docs_update_content_schema_mismatch_witness :
    ((∃ m, parseUpdateDocContentInput
        (Json.obj [("document_id", Json.str "d"), ("content", Json.str "x")]) = .error m) ∧
      uniformFailure
        (callTool (allErrEnv (Thrown.jsValue Json.null)) "docs_update_content"
          (Json.obj [("document_id", Json.str "d"), ("content", Json.str "x")])).1 ∧
      (callTool (allErrEnv (Thrown.jsValue Json.null)) "docs_update_content"
        (Json.obj [("document_id", Json.str "d"), ("content", Json.str "x")])).2 = []) ∧
    advertisedDocsUpdateContentValid
      (Json.obj [("document_id", Json.str "d"), ("requests", Json.arr [])]) = false :=
  ⟨⟨(docs_update_content_schema_mismatch.1
      (Json.obj [("document_id", Json.str "d"), ("content", Json.str "x")]) rfl).1,
    (docs_update_content_schema_mismatch.1
      (Json.obj [("document_id", Json.str "d"), ("content", Json.str "x")]) rfl).2
      (allErrEnv (Thrown.jsValue Json.null))⟩,
   docs_update_content_schema_mismatch.2 (Json.str "d") (Json.arr [])⟩

/-- C7: with a held credential record carrying no refresh token and an
`expiry_date` at or past the five-minute margin, `authenticate()` fails with
the `NO_REFRESH_TOKEN` error, invokes the refresh endpoint zero times, and
leaves the in-memory credentials and the credential file unchanged —
whatever the refresh endpoint would have answered. -/
theorem authenticate_no_refresh_token_fails :
    ∀ (a : OAuth2Client) (c : Credentials) (fs : FsState) (p : String) (now : Int)
      (e : Int) (rr : Except Unit Credentials),
      c.expiry_date = some e → e ≤ now + fiveMinutes → c.refresh_token = none →
      authenticate ⟨some a, some c⟩ fs p now rr =
        ⟨.error ⟨"No refresh token available. Please run `node dist/index.js auth` to re-authenticate.",
                 .NO_REFRESH_TOKEN⟩, ⟨some a, some c⟩, fs, 0⟩ := by
  intro a c fs p now e rr hexp hle hrt
  have hnlt : ¬ (now + fiveMinutes < e) := by omega
  rcases eq_or_ne e 0 with he | he <;>
    simp [authenticate, expiryFresh, hexp, he, hnlt, hrt, jsTruthyStr]

/-- C7 witness: at time 0 with an expiry of 100 ms and no refresh token,
`authenticate()` fails with `NO_REFRESH_TOKEN` leaving everything
unchanged. -/
theorem authenticate_no_refresh_token_witness :
    authenticate ⟨some clientW, some { expiry_date := some 100 }⟩ fsW "p" 0 (.error ()) =
      ⟨.error ⟨"No refresh token available. Please run `node dist/index.js auth` to re-authenticate.",
               .NO_REFRESH_TOKEN⟩, ⟨some clientW, some { expiry_date := some 100 }⟩, fsW, 0⟩ :=
  authenticate_no_refresh_token_fails clientW { expiry_date := some 100 } fsW "p" 0 100
    (.error ()) rfl (by decide) rfl

/-- C8: `loadSavedCredentials()` returns `null` (not an error) whenever the
credential file is missing; fails with `NO_OAUTH_KEYS` whenever the
credential file exists but the OAuth client-config file is missing; and when
both files exist, the config extracts, and the credential JSON is a proper
(non-falsy) value, it returns a new client carrying the loaded
credentials. -/
theorem loadSavedCredentials_spec :
    ∀ (s : AuthState) (fs : FsState) (p : String),
      (fs.credFile = none → loadSavedCredentials s fs p = .ok (none, s)) ∧
      (∀ j, fs.credFile = some j → fs.oauthFile = none →
        loadSavedCredentials s fs p =
          .error ⟨"OAuth keys file not found at " ++ p ++
                  ". Please set up your OAuth credentials first.", .NO_OAUTH_KEYS⟩) ∧
      (∀ j oj cfg, fs.credFile = some j → fs.oauthFile = some oj →
        readOAuthConfig oj = .ok cfg → jsonFalsy j = false →
        loadSavedCredentials s fs p =
          .ok (some ⟨cfg.clientId, cfg.clientSecret, cfg.redirectUri, some (credsOfJson j)⟩,
               ⟨some ⟨cfg.clientId, cfg.clientSecret, cfg.redirectUri, some (credsOfJson j)⟩,
                some (credsOfJson j)⟩)) := by
  intro s fs p
  refine ⟨fun h => by simp [loadSavedCredentials, h],
          fun j hc ho => by simp [loadSavedCredentials, hc, ho],
          fun j oj cfg hc ho hcfg hf => ?_⟩
  simp [loadSavedCredentials, hc, ho, hcfg, hf]

/-- C8 witness: the three branches at concrete filesystems — missing
credential file, missing client-config file, and both present and
parsing. -/
theorem loadSavedCredentials_spec_witness :
    loadSavedCredentials stateW ⟨none, some oauthW⟩ "p" = .ok (none, stateW) ∧
    loadSavedCredentials stateW ⟨some credJsonW, none⟩ "p" =
      .error ⟨"OAuth keys file not found at " ++ "p" ++
              ". Please set up your OAuth credentials first.", .NO_OAUTH_KEYS⟩ ∧
    loadSavedCredentials stateW ⟨some credJsonW, some oauthW⟩ "p" =
      .ok (some ⟨cfgW.clientId, cfgW.clientSecret, cfgW.redirectUri, some (credsOfJson credJsonW)⟩,
           ⟨some ⟨cfgW.clientId, cfgW.clientSecret, cfgW.redirectUri, some (credsOfJson credJsonW)⟩,
            some (credsOfJson credJsonW)⟩) :=
  ⟨(loadSavedCredentials_spec stateW ⟨none, some oauthW⟩ "p").1 rfl,
   (loadSavedCredentials_spec stateW ⟨some credJsonW, none⟩ "p").2.1 credJsonW rfl rfl,
   (loadSavedCredentials_spec stateW ⟨some credJsonW, some oauthW⟩ "p").2.2 credJsonW oauthW
     cfgW rfl rfl rfl rfl⟩

/-- C9: for a document update whose content is the single styled section
with text `Hello` and style `bold`, the emitted batch request sequence is
exactly: a `deleteContentRange` covering the document's prior content range,
then an `insertText` of `Hello` at index 1, then one `updateTextStyle` whose
field mask is exactly `bold` — and no paragraph-style request is emitted. -/
theorem docs_update_single_bold_section :
    ∀ e : Nat,
      buildUpdateDocumentRequests
          (.section ⟨"Hello", some { bold := some true }⟩) e =
        [.deleteContentRange ⟨1, e⟩, .insertText none 1 "Hello",
         .updateTextStyle ⟨1, 6⟩ { bold := some true } "bold"] ∧
      (buildUpdateDocumentRequests
          (.section ⟨"Hello", some { bold := some true }⟩) e).filter
        isUpdateParagraphStyle = [] := by
  intro e
  exact ⟨rfl, rfl⟩

/-- C10: saving any credential record with `saveCredentials` and then
loading with `loadSavedCredentials` (with a parsing client-config file in
place) yields a client carrying a credential record identical to the saved
one — in particular its access token, refresh token and expiry timestamp
round-trip losslessly through the JSON credential file. -/
theorem credentials_roundtrip :
    ∀ (c : Credentials) (s : AuthState) (fs : FsState) (p : String) (oj : Json)
      (cfg : ClientConfig),
      fs.oauthFile = some oj → readOAuthConfig oj = .ok cfg →
      ∃ client : OAuth2Client,
        loadSavedCredentials s (saveCredentials fs c) p =
          .ok (some client, ⟨some client, some c⟩) ∧
        client.credentials = some c := by
  intro c s fs p oj cfg ho hcfg
  refine ⟨⟨cfg.clientId, cfg.clientSecret, cfg.redirectUri, some c⟩, ?_, rfl⟩
  simp [loadSavedCredentials, saveCredentials, ho, hcfg, jsonFalsy_credsToJson,
        credsOfJson_credsToJson]

/-- C10 witness: a concrete record with access token, refresh token and
expiry survives the save-then-load round trip. -/
theorem credentials_roundtrip_witness :
    ∃ client : OAuth2Client,
      loadSavedCredentials stateW
          (saveCredentials ⟨none, some oauthW⟩
            { access_token := some "tok", refresh_token := some "ref",
              expiry_date := some 12345 }) "p" =
        .ok (some client,
             ⟨some client, some { access_token := some "tok", refresh_token := some "ref",
                                  expiry_date := some 12345 }⟩) ∧
      client.credentials =
        some { access_token := some "tok", refresh_token := some "ref",
               expiry_date := some 12345 } :=
  credentials_roundtrip
    { access_token := some "tok", refresh_token := some "ref", expiry_date := some 12345 }
    stateW ⟨none, some oauthW⟩ "p" oauthW cfgW rfl rfl

end Gsuite
